import Mathlib

/-!
Shallow embedding of the BAZI engine (`backend/bazi_engine/`) of the
bazi-ai repository, together with proofs about the properties its
specification claims.

Conventions used throughout:
* Python enums become Lean inductive types; the per-member property
  dictionaries (`element`, `yin_yang`, `zodiac`) become total functions
  by exhaustive pattern match.
* Python `dict.get` is modelled as an `Option`-valued function where a
  claim is about lookup failure; where the source immediately consumes
  the value (and a `None` would crash), the total variant is used and a
  theorem relates the two.
* Python integers are `ℤ` (or `ℕ` where the source value is a calendar
  component that is never negative); Python `%` and `//` on operands
  with a positive right-hand side coincide with `Int.emod`/`Int.ediv`.
* Python floats are modelled as `ℚ`.  All float literals appearing in
  the engine (0.5, 1.5, 0.6, 0.7, 1.3, 2.5, 25.0, ...) are written as
  the corresponding rationals.
* Localized advice/explanation strings (4-language dictionaries) are
  presentation data computed from already-modelled fields; they are not
  part of the embedding.  Numeric scores, enums and list structure are
  modelled in full.
* The system clock (`datetime.now()`, `date.today()`) is modelled as an
  explicit extra parameter.
-/

/-! ### Stems and branches (`stems_branches.py`) -/

/-- The 10 Heavenly Stems (天干), in the declaration order of the source
enum family; property dictionaries become the functions below. -/
inductive HeavenlyStem
  | JIA | YI | BING | DING | WU | JI | GENG | XIN | REN | GUI
deriving DecidableEq, Fintype

/-- The 12 Earthly Branches (地支). -/
inductive EarthlyBranch
  | ZI | CHOU | YIN | MAO | CHEN | SI | WU_BRANCH | WEI | SHEN | YOU | XU | HAI
deriving DecidableEq, Fintype

/-- The five elements (`elements.py`, `class Element`). -/
inductive Element
  | Wood | Fire | Earth | Metal | Water
deriving DecidableEq, Fintype

/-- Yin/Yang polarity strings of the source. -/
inductive Polarity
  | Yang | Yin
deriving DecidableEq, Fintype

open HeavenlyStem EarthlyBranch Element Polarity

/-- `stem.value["element"]` (`get_stem_element`). -/
def get_stem_element : HeavenlyStem → Element
  | JIA => Wood | YI => Wood
  | BING => Fire | DING => Fire
  | WU => Earth | JI => Earth
  | GENG => Metal | XIN => Metal
  | REN => Water | GUI => Water

/-- `stem.value["yin_yang"]` (`get_stem_yin_yang`). -/
def get_stem_yin_yang : HeavenlyStem → Polarity
  | JIA => Yang | YI => Yin
  | BING => Yang | DING => Yin
  | WU => Yang | JI => Yin
  | GENG => Yang | XIN => Yin
  | REN => Yang | GUI => Yin

/-- `branch.value["element"]` (`get_branch_element`). -/
def get_branch_element : EarthlyBranch → Element
  | ZI => Water | CHOU => Earth | YIN => Wood | MAO => Wood
  | CHEN => Earth | SI => Fire | WU_BRANCH => Fire | WEI => Earth
  | SHEN => Metal | YOU => Metal | XU => Earth | HAI => Water

/-- `branch.value["yin_yang"]` (`get_branch_yin_yang`). -/
def get_branch_yin_yang : EarthlyBranch → Polarity
  | ZI => Yang | CHOU => Yin | YIN => Yang | MAO => Yin
  | CHEN => Yang | SI => Yin | WU_BRANCH => Yang | WEI => Yin
  | SHEN => Yang | YOU => Yin | XU => Yang | HAI => Yin

/-- `STEM_INDEX` (stem → 0..9); total because every stem is a key. -/
def STEM_INDEX : HeavenlyStem → ℤ
  | JIA => 0 | YI => 1 | BING => 2 | DING => 3 | WU => 4
  | JI => 5 | GENG => 6 | XIN => 7 | REN => 8 | GUI => 9

/-- `BRANCH_INDEX` (branch → 0..11); total because every branch is a key. -/
def BRANCH_INDEX : EarthlyBranch → ℤ
  | ZI => 0 | CHOU => 1 | YIN => 2 | MAO => 3 | CHEN => 4 | SI => 5
  | WU_BRANCH => 6 | WEI => 7 | SHEN => 8 | YOU => 9 | XU => 10 | HAI => 11

/-- `INDEX_TO_STEM.get k` — the dictionary has exactly the keys 0..9,
any other key yields `None`. -/
def INDEX_TO_STEM_get (k : ℤ) : Option HeavenlyStem :=
  if k = 0 then some JIA else if k = 1 then some YI
  else if k = 2 then some BING else if k = 3 then some DING
  else if k = 4 then some WU else if k = 5 then some JI
  else if k = 6 then some GENG else if k = 7 then some XIN
  else if k = 8 then some REN else if k = 9 then some GUI
  else none

/-- `INDEX_TO_BRANCH.get k` — keys are exactly 0..11. -/
def INDEX_TO_BRANCH_get (k : ℤ) : Option EarthlyBranch :=
  if k = 0 then some ZI else if k = 1 then some CHOU
  else if k = 2 then some YIN else if k = 3 then some MAO
  else if k = 4 then some CHEN else if k = 5 then some SI
  else if k = 6 then some WU_BRANCH else if k = 7 then some WEI
  else if k = 8 then some SHEN else if k = 9 then some YOU
  else if k = 10 then some XU else if k = 11 then some HAI
  else none

/-- `get_stem_by_index(index) = INDEX_TO_STEM.get(index % 10)`.  Python
`%` on a positive modulus is `Int.emod`. -/
def get_stem_by_index (n : ℤ) : Option HeavenlyStem :=
  INDEX_TO_STEM_get (n % 10)

/-- `get_branch_by_index(index) = INDEX_TO_BRANCH.get(index % 12)`. -/
def get_branch_by_index (n : ℤ) : Option EarthlyBranch :=
  INDEX_TO_BRANCH_get (n % 12)

/-- Total variant of `get_stem_by_index`: the callers of
`get_stem_by_index` in the source use its result unconditionally (a
`None` would crash), and `stem_index_total` below proves
`get_stem_by_index n = some (stem_of_idx n)` for every integer, so the
rest of the embedding uses this total function. -/
def stem_of_idx (n : ℤ) : HeavenlyStem :=
  match (n % 10).toNat with
  | 0 => JIA | 1 => YI | 2 => BING | 3 => DING | 4 => WU
  | 5 => JI | 6 => GENG | 7 => XIN | 8 => REN | _ => GUI

/-- Total variant of `get_branch_by_index` (see `stem_of_idx`). -/
def branch_of_idx (n : ℤ) : EarthlyBranch :=
  match (n % 12).toNat with
  | 0 => ZI | 1 => CHOU | 2 => YIN | 3 => MAO | 4 => CHEN | 5 => SI
  | 6 => WU_BRANCH | 7 => WEI | 8 => SHEN | 9 => YOU | 10 => XU | _ => HAI

/-! ### Five elements (`elements.py`) -/

/-- The relationship classification returned by
`get_element_relationships`: one of the strings
`"same" | "generates" | "destroys" | "none"`. -/
inductive ElemRel
  | same | generates | destroys | none
deriving DecidableEq, Fintype

/-- `GENERATION_CYCLE`: Wood → Fire → Earth → Metal → Water → Wood. -/
def GENERATION_CYCLE : Element → Element
  | Wood => Fire | Fire => Earth | Earth => Metal | Metal => Water | Water => Wood

/-- `DESTRUCTION_CYCLE`: Wood → Earth → Water → Fire → Metal → Wood
(listed in the source keyed per element). -/
def DESTRUCTION_CYCLE : Element → Element
  | Wood => Earth | Earth => Water | Water => Fire | Fire => Metal | Metal => Wood

/-- `get_element_relationships(elem1, elem2)`.  The source first parses
element strings and returns `"none"` on an unrecognised string; on the
`Element` domain both parses succeed, so only the final four branches
remain. -/
def get_element_relationships (a b : Element) : ElemRel :=
  if a = b then .same
  else if GENERATION_CYCLE a = b then .generates
  else if DESTRUCTION_CYCLE a = b then .destroys
  else .none

/-! ### Sexagenary calculator (`calculator.py`) -/

/-- `GREGORIAN_EPOCH = 1900`. -/
def GREGORIAN_EPOCH : ℤ := 1900

/-- `get_year_stem_branch(year)`: position in the 60-year cycle from the
1900 epoch; stem = position mod 10, branch = position mod 12.  The same
arithmetic is duplicated verbatim in `annual_luck._get_year_stem_branch`. -/
def get_year_stem_branch (year : ℤ) : HeavenlyStem × EarthlyBranch :=
  let year_position := (year - GREGORIAN_EPOCH) % 60
  (stem_of_idx (year_position % 10), branch_of_idx (year_position % 12))

/-- `is_leap_year(year)`. -/
def is_leap_year (y : ℕ) : Bool :=
  (y % 4 == 0 && y % 100 != 0) || (y % 400 == 0)

/-- `get_days_in_month(year, month)`; the source indexes a 12-entry list
with `month - 1` (months outside 1..12 would raise; the `_ => 0` branch
is never consulted by the callers, which iterate `m = 1 .. month-1 ≤ 11`). -/
def get_days_in_month (y m : ℕ) : ℤ :=
  if m = 2 ∧ is_leap_year y then 29
  else match m with
    | 1 => 31 | 2 => 28 | 3 => 31 | 4 => 30 | 5 => 31 | 6 => 30
    | 7 => 31 | 8 => 31 | 9 => 30 | 10 => 31 | 11 => 30 | 12 => 31
    | _ => 0

/-- The loop `for y in range(1900, year): total += 366 if leap else 365`
of `get_day_stem_branch`, as a recursion on the number of complete years
since 1900 (an empty range for `year ≤ 1900`, matching `Nat` subtraction
in `total_days`). -/
def days_for_years : ℕ → ℤ
  | 0 => 0
  | n + 1 => days_for_years n + (if is_leap_year (1900 + n) then 366 else 365)

/-- The loop `for m in range(1, month): total += get_days_in_month(year, m)`
of `get_day_stem_branch`; the argument is `month - 1`. -/
def days_for_months (y : ℕ) : ℕ → ℤ
  | 0 => 0
  | k + 1 => days_for_months y k + get_days_in_month y (k + 1)

/-- `total_days` as computed by `get_day_stem_branch(year, month, day)`:
complete years since 1900, plus complete months, plus the day of month. -/
def total_days (y m d : ℕ) : ℤ :=
  days_for_years (y - 1900) + days_for_months y (m - 1) + d

/-- `get_day_stem_branch(year, month, day)`: day position is
`(total_days - 1) % 60`, day 1 (1900-01-01) being 甲子 (position 0). -/
def get_day_stem_branch (y m d : ℕ) : HeavenlyStem × EarthlyBranch :=
  let day_position := (total_days y m d - 1) % 60
  (stem_of_idx (day_position % 10), branch_of_idx (day_position % 12))

/-- `get_month_stem_branch(year, month)`: month stem from a fixed
multiplier/offset on the year-stem index, month branch `(month+10) % 12`.
(The source also computes an unused `year_stem_index` byte string, which
has no effect and is omitted.) -/
def get_month_stem_branch (year : ℤ) (month : ℕ) : HeavenlyStem × EarthlyBranch :=
  let year_stem_pos := STEM_INDEX (get_year_stem_branch year).1
  let month_stem_base := year_stem_pos * 2
  let month_stem_index := (month_stem_base + ((month : ℤ) - 1) % 12) % 10
  let month_branch_index := ((month : ℤ) + 10) % 12
  (stem_of_idx month_stem_index, branch_of_idx month_branch_index)

/-- `get_hour_stem_branch(day_stem, hour)`: 2-hour branch buckets with
23:00–01:00 mapping to 子 (index 0), hour stem from a halving/offset on
the day-stem index.  Python `//` on the non-negative `hour % 24` is
`Int.ediv`. -/
def get_hour_stem_branch (day_stem : HeavenlyStem) (hour : ℤ) :
    HeavenlyStem × EarthlyBranch :=
  let hour_for_branch := hour % 24
  let hour_branch_index : ℤ :=
    if 23 ≤ hour_for_branch ∨ hour_for_branch < 1 then 0
    else
      let i := (hour_for_branch + 1) / 2
      if 11 < i then 11 else i
  let day_stem_pos := STEM_INDEX day_stem
  let hour_stem_base := (day_stem_pos / 2) * 2
  let hour_stem_index := (hour_stem_base + hour_branch_index / 2) % 10
  (stem_of_idx hour_stem_index, branch_of_idx hour_branch_index)

/-! ### The O(1) day pillar of the forecast engine (`daily_forecast.py`)

`get_daily_pillar(target_date)` computes
`delta = (target_date - date(1900, 1, 1)).days`.  Python's
`datetime.date` subtraction is the difference of proleptic-Gregorian
ordinals (`date.toordinal`), which CPython computes as
`days_before_year(y) + days_before_month(y, m) + d` with
`days_before_year(y) = 365*(y-1) + (y-1)//4 - (y-1)//100 + (y-1)//400`
and a cumulative month table plus a leap correction after February.
The following definitions model exactly that arithmetic. -/

/-- CPython `datetime._days_before_year(y)`; for `y ≥ 1` the operands of
`//` are non-negative, so `Int.ediv` matches Python floor division. -/
def days_before_year (y : ℤ) : ℤ :=
  365 * (y - 1) + (y - 1) / 4 - (y - 1) / 100 + (y - 1) / 400

/-- CPython `datetime._days_before_month(y, m)`: cumulative days before
month `m`, plus 1 if `m > 2` in a leap year. -/
def days_before_month (y m : ℕ) : ℤ :=
  (match m with
    | 1 => 0 | 2 => 31 | 3 => 59 | 4 => 90 | 5 => 120 | 6 => 151
    | 7 => 181 | 8 => 212 | 9 => 243 | 10 => 273 | 11 => 304 | 12 => 334
    | _ => 0)
  + (if 2 < m ∧ is_leap_year y then 1 else 0)

/-- CPython `date(y, m, d).toordinal()`. -/
def to_ordinal (y m d : ℕ) : ℤ :=
  days_before_year y + days_before_month y m + d

/-- `get_daily_pillar(target_date)` for the date `(y, m, d)`:
`delta = (target_date - _REFERENCE_DATE).days`, `pos = delta % 60`,
then `get_stem_by_index(pos % 10)` / `get_branch_by_index(pos % 12)`. -/
def get_daily_pillar (y m d : ℕ) : HeavenlyStem × EarthlyBranch :=
  let delta := to_ordinal y m d - to_ordinal 1900 1 1
  let pos := delta % 60
  (stem_of_idx (pos % 10), branch_of_idx (pos % 12))

/-! ### Ten Gods (`ten_gods.py`) -/

/-- The keys of the `TEN_GODS` dictionary. -/
inductive TenGodKey
  | friend | rob_wealth | eating_god | hurting_officer
  | indirect_wealth | direct_wealth | seven_killings | direct_officer
  | indirect_resource | direct_resource
deriving DecidableEq, Fintype

/-- `get_ten_god(dm_element, dm_yin_yang, target_element, target_yin_yang)`.
The source lower-cases polarity strings before comparing, which on the
`Polarity` domain is plain equality.  The final `return TEN_GODS["friend"]`
fallback for unrecognised element strings is kept as the last branch. -/
def get_ten_god (dm_element : Element) (dm_yin_yang : Polarity)
    (target_element : Element) (target_yin_yang : Polarity) : TenGodKey :=
  let same_polarity := dm_yin_yang = target_yin_yang
  let rel_dm_to_target := get_element_relationships dm_element target_element
  let rel_target_to_dm := get_element_relationships target_element dm_element
  if rel_dm_to_target = .same then
    if same_polarity then .friend else .rob_wealth
  else if rel_dm_to_target = .generates then
    if same_polarity then .eating_god else .hurting_officer
  else if rel_dm_to_target = .destroys then
    if same_polarity then .indirect_wealth else .direct_wealth
  else if rel_target_to_dm = .destroys then
    if same_polarity then .seven_killings else .direct_officer
  else if rel_target_to_dm = .generates then
    if same_polarity then .indirect_resource else .direct_resource
  else .friend

/-- The Ten-God category (pair of same/different-polarity outcomes)
dictated by each of the five priority branches of §4.3 of the spec,
written from the spec's words for comparison with `get_ten_god`:
same element → Friend/RobWealth; DM generates target → EatingGod/
HurtingOfficer; DM destroys target → IndirectWealth/DirectWealth;
target destroys DM → SevenKillings/DirectOfficer; target generates DM →
IndirectResource/DirectResource. -/
def ten_god_category_spec (r1 r2 : ElemRel) : List TenGodKey :=
  if r1 = .same then [.friend, .rob_wealth]
  else if r1 = .generates then [.eating_god, .hurting_officer]
  else if r1 = .destroys then [.indirect_wealth, .direct_wealth]
  else if r2 = .destroys then [.seven_killings, .direct_officer]
  else if r2 = .generates then [.indirect_resource, .direct_resource]
  else []

/-! ### Seasonal strength (`seasonal_strength.py`) -/

/-- The `strength` string of `get_seasonal_strength`. -/
inductive SeasonKind
  | strong | neutral | weak
deriving DecidableEq, Fintype

/-- `ELEMENT_SEASON_BRANCHES` (month-branch indices of the element's own
season). -/
def ELEMENT_SEASON_BRANCHES : Element → List ℤ
  | Wood => [2, 3]
  | Fire => [5, 6]
  | Metal => [8, 9]
  | Water => [11, 0]
  | Earth => [1, 4, 7, 10]

/-- `ELEMENT_OPPOSITE_BRANCHES` (month-branch indices of the opposing
season; empty for Earth). -/
def ELEMENT_OPPOSITE_BRANCHES : Element → List ℤ
  | Wood => [8, 9]
  | Fire => [11, 0]
  | Metal => [2, 3]
  | Water => [5, 6]
  | Earth => []

/-- `get_seasonal_strength(day_master_element, month_branch_index)`,
restricted to its `strength` field (the other fields are localized
explanation strings).  The unrecognised-element guard of the source
cannot fire on the `Element` domain. -/
def get_seasonal_strength (day_master_element : Element)
    (month_branch_index : ℤ) : SeasonKind :=
  if month_branch_index ∈ ELEMENT_SEASON_BRANCHES day_master_element then .strong
  else if month_branch_index ∈ ELEMENT_OPPOSITE_BRANCHES day_master_element then .weak
  else .neutral

/-! ### Use God (`use_god.py`) -/

/-- `RESOURCE_FOR` (what produces each element, 生我). -/
def RESOURCE_FOR : Element → Element
  | Wood => Water | Fire => Wood | Earth => Fire | Metal => Earth | Water => Metal

/-- `OUTPUT_OF` (what each element produces, 我生). -/
def OUTPUT_OF : Element → Element
  | Wood => Fire | Fire => Earth | Earth => Metal | Metal => Water | Water => Wood

/-- `CONTROLLER_OF` (what controls each element, 克我). -/
def CONTROLLER_OF : Element → Element
  | Wood => Metal | Fire => Water | Earth => Wood | Metal => Fire | Water => Earth

/-- `CONTROLLED_BY` (what each element controls, 我克). -/
def CONTROLLED_BY : Element → Element
  | Wood => Earth | Fire => Metal | Earth => Water | Metal => Wood | Water => Fire

/-- A pillar: one stem and one branch. -/
structure Pillar where
  stem : HeavenlyStem
  branch : EarthlyBranch
deriving DecidableEq

/-- The four natal pillars. -/
structure FourPillars where
  year : Pillar
  month : Pillar
  day : Pillar
  hour : Pillar
deriving DecidableEq

/-- The per-position contribution of the loop body of
`_calculate_dm_strength_score` (`elif` chain on the position's element):
+1 same element, +0.5 resource, −1 controller, −0.5 output, else 0. -/
def dm_position_contribution (day_master_element : Element) (e : Element) : ℚ :=
  if e = day_master_element then 1
  else if e = RESOURCE_FOR day_master_element then 1/2
  else if e = CONTROLLER_OF day_master_element then -1
  else if e = OUTPUT_OF day_master_element then -1/2
  else 0

/-- `_calculate_dm_strength_score(day_master_element, element_counts,
seasonal_strength, four_pillars)`: seasonal term (strong +2 / weak −2 /
else 0), then the loop over every stem and branch except the day stem,
in pillar order with the stem before the branch.  (The `element_counts`
parameter is unused by the source body and dropped here.) -/
def calculate_dm_strength_score (day_master_element : Element)
    (seasonal_strength : SeasonKind) (fp : FourPillars) : ℚ :=
  let seasonal : ℚ :=
    match seasonal_strength with
    | .strong => 2 | .weak => -2 | .neutral => 0
  let pc := dm_position_contribution day_master_element
  seasonal
    + pc (get_stem_element fp.year.stem) + pc (get_branch_element fp.year.branch)
    + pc (get_stem_element fp.month.stem) + pc (get_branch_element fp.month.branch)
    + pc (get_branch_element fp.day.branch)
    + pc (get_stem_element fp.hour.stem) + pc (get_branch_element fp.hour.branch)

/-- The `dm_strength` classification of `determine_use_god`. -/
inductive DmStrength
  | strong | weak | balanced
deriving DecidableEq, Fintype

/-- The computational fields of the dictionary returned by
`determine_use_god` (advice/explanation strings are localized
presentation data keyed by these fields). -/
structure UseGodResult where
  dm_strength : DmStrength
  use_god : Element
  use_god_secondary : Element
  avoid_god : Element
  avoid_god_secondary : Element
deriving DecidableEq

/-- `determine_use_god(...)`: thresholds `score >= 1.5` (strong),
`score <= -1.5` (weak), else balanced, with the favourable/unfavourable
elements assigned as in the source. -/
def determine_use_god (day_master_element : Element)
    (seasonal_strength : SeasonKind) (fp : FourPillars) : UseGodResult :=
  let score := calculate_dm_strength_score day_master_element seasonal_strength fp
  let resource := RESOURCE_FOR day_master_element
  let output := OUTPUT_OF day_master_element
  let controller := CONTROLLER_OF day_master_element
  if 3/2 ≤ score then
    ⟨.strong, output, controller, day_master_element, resource⟩
  else if score ≤ -(3/2) then
    ⟨.weak, resource, day_master_element, controller, output⟩
  else
    ⟨.balanced, resource, day_master_element, controller, output⟩

/-- The Day-Master strength score as §4.4 of the spec words it: the
seasonal term plus, summed over the 3 non-Day stems and the 4 branches,
+1 for the Day Master's own element, +0.5 for its Resource element, −1
for its Controller element, −0.5 for its Output element.  Written from
the spec for comparison with `calculate_dm_strength_score`. -/
def dm_strength_score_spec (day_master_element : Element)
    (seasonal_strength : SeasonKind) (fp : FourPillars) : ℚ :=
  (match seasonal_strength with
    | .strong => 2 | .weak => -2 | .neutral => 0)
  + (([get_stem_element fp.year.stem, get_stem_element fp.month.stem,
       get_stem_element fp.hour.stem,
       get_branch_element fp.year.branch, get_branch_element fp.month.branch,
       get_branch_element fp.day.branch, get_branch_element fp.hour.branch].map
      (fun e =>
        if e = day_master_element then (1 : ℚ)
        else if e = RESOURCE_FOR day_master_element then 1/2
        else if e = CONTROLLER_OF day_master_element then -1
        else if e = OUTPUT_OF day_master_element then -1/2
        else 0)).sum)

/-- The Use-God outcome as the claim words it: score ≥ 1.5 → strong with
use god = Output, secondary = Controller, avoid god = same element,
secondary = Resource; score ≤ −1.5 → weak with use god = Resource,
secondary = same element, avoid god = Controller, secondary = Output;
otherwise balanced with use god = Resource (secondary same element,
avoid Controller then Output).  Written from the spec for comparison
with `determine_use_god`. -/
def use_god_outcome_spec (day_master_element : Element)
    (seasonal_strength : SeasonKind) (fp : FourPillars) : UseGodResult :=
  let score := dm_strength_score_spec day_master_element seasonal_strength fp
  if 3/2 ≤ score then
    ⟨.strong, OUTPUT_OF day_master_element, CONTROLLER_OF day_master_element,
      day_master_element, RESOURCE_FOR day_master_element⟩
  else if score ≤ -(3/2) then
    ⟨.weak, RESOURCE_FOR day_master_element, day_master_element,
      CONTROLLER_OF day_master_element, OUTPUT_OF day_master_element⟩
  else
    ⟨.balanced, RESOURCE_FOR day_master_element, day_master_element,
      CONTROLLER_OF day_master_element, OUTPUT_OF day_master_element⟩

/-! ### Annual luck (`annual_luck.py`) -/

/-- `SIX_CLASHES` of `annual_luck.py` (pairs of branch indices, 6 apart). -/
def SIX_CLASHES_pairs : List (ℤ × ℤ) :=
  [(0, 6), (1, 7), (2, 8), (3, 9), (4, 10), (5, 11)]

/-- `SIX_COMBINATIONS` of `annual_luck.py`. -/
def SIX_COMBINATIONS_pairs : List (ℤ × ℤ) :=
  [(0, 1), (2, 11), (3, 10), (4, 9), (5, 8), (6, 7)]

/-- `_is_clash(idx1, idx2)`: membership of the `(min, max)`-normalised
pair in `SIX_CLASHES`. -/
def is_clash (a b : ℤ) : Bool :=
  SIX_CLASHES_pairs.contains (min a b, max a b)

/-- `_is_combination(idx1, idx2)`. -/
def is_combination (a b : ℤ) : Bool :=
  SIX_COMBINATIONS_pairs.contains (min a b, max a b)

/-- The pillar keys `"year" | "month" | "day" | "hour"`. -/
inductive PillarName
  | year | month | day | hour
deriving DecidableEq, Fintype

/-- The `type` strings of the interaction dictionaries produced by
`calculate_annual_luck` (`"Clash"` / `"Combination"`). -/
inductive InteractionKind
  | Clash | Combination
deriving DecidableEq

/-- The computational content of the `calculate_annual_luck` result: the
annual pillar (with the echoed year) and the interaction list; the
localized `description`/`pillar_label` strings are presentation data
determined by `(kind, pillar, language)`. -/
structure AnnualLuck where
  stem : HeavenlyStem
  branch : EarthlyBranch
  year : ℤ
  interactions : List (InteractionKind × PillarName)
deriving DecidableEq

/-- `calculate_annual_luck(four_pillars, year, language)` with the year
made explicit: the source defaults `year` to `datetime.now().year`, so
this parameter is the system clock when the caller (such as
`calculate_bazi`) passes no year.  Per natal pillar in order
year/month/day/hour, a Clash entry is appended when the annual branch
clashes with the pillar branch, then a Combination entry when it
combines.  (The `annual_branch_idx < 0` early return of the source is
unreachable because every branch name is a key of
`BRANCH_NAME_TO_INDEX`.) -/
def calculate_annual_luck (four_pillars : FourPillars) (year : ℤ) : AnnualLuck :=
  let yp := get_year_stem_branch year
  let annual_branch_idx := BRANCH_INDEX yp.2
  let entries := fun (n : PillarName) (p : Pillar) =>
    let pillar_branch_idx := BRANCH_INDEX p.branch
    (if is_clash annual_branch_idx pillar_branch_idx
      then [(InteractionKind.Clash, n)] else [])
    ++ (if is_combination annual_branch_idx pillar_branch_idx
      then [(InteractionKind.Combination, n)] else [])
  { stem := yp.1
    branch := yp.2
    year := year
    interactions :=
      entries .year four_pillars.year ++ entries .month four_pillars.month
        ++ entries .day four_pillars.day ++ entries .hour four_pillars.hour }

/-! ### Daily forecast overall score (`daily_forecast.py`) -/

/-- `calculate_overall_score(dm_element, use_god, use_god_2, avoid_god,
avoid_god_2, daily_elem, daily_branch_idx, natal_branch_indices)`.
The four use/avoid parameters are element strings that may be empty
(`""`) when the chart carries no `use_god` block; `Option Element`
models string-or-empty, and `some daily_elem = ug` models the string
comparison `daily_elem == use_god`.  The final
`max(0, min(100, int(round(score))))` is modelled with `round : ℚ → ℤ`
(every addend is an integer, so the float round is exact). -/
def calculate_overall_score (dm_element : Element)
    (use_god use_god_2 avoid_god avoid_god_2 : Option Element)
    (daily_elem : Element) (daily_branch_idx : ℤ)
    (natal_branch_indices : List ℤ) : ℤ :=
  let score : ℚ := 50
  let score := score +
    (if some daily_elem = use_god then 25
     else if some daily_elem = use_god_2 then 15
     else if some daily_elem = avoid_god then -20
     else if some daily_elem = avoid_god_2 then -12
     else 0)
  let rel := get_element_relationships daily_elem dm_element
  let score := score +
    (match rel with
      | .generates => 10 | .same => 5 | .destroys => -10 | .none => 0)
  let reverse := get_element_relationships dm_element daily_elem
  let score := score +
    (match reverse with
      | .generates => -3 | .destroys => -5 | _ => 0)
  let score := natal_branch_indices.foldl
    (fun acc nb_idx =>
      let acc := if is_clash daily_branch_idx nb_idx then acc - 8 else acc
      if is_combination daily_branch_idx nb_idx then acc + 8 else acc)
    score
  max 0 (min 100 (round score))

/-- The overall daily score as the claim words it: 50, plus the
use/avoid-god adjustment (+25 / +15 / −20 / −12), plus the Day-Master
relation adjustment (+10 generates DM, +5 same, −10 destroys DM, −3 DM
generates it, −5 DM destroys it), plus the sum over the natal branches
of (−8 per clash and +8 per combination with the daily branch), clamped
into [0, 100].  Written from the spec for comparison with
`calculate_overall_score`. -/
def overall_score_spec (dm_element : Element)
    (use_god use_god_2 avoid_god avoid_god_2 : Option Element)
    (daily_elem : Element) (daily_branch_idx : ℤ)
    (natal_branch_indices : List ℤ) : ℤ :=
  let god_adj : ℚ :=
    if some daily_elem = use_god then 25
    else if some daily_elem = use_god_2 then 15
    else if some daily_elem = avoid_god then -20
    else if some daily_elem = avoid_god_2 then -12
    else 0
  let dm_adj : ℚ :=
    (match get_element_relationships daily_elem dm_element with
      | .generates => 10 | .same => 5 | .destroys => -10 | .none => 0)
    + (match get_element_relationships dm_element daily_elem with
      | .generates => -3 | .destroys => -5 | _ => 0)
  let branch_adj : ℚ :=
    (natal_branch_indices.map (fun nb_idx =>
      (if is_clash daily_branch_idx nb_idx then (-8 : ℚ) else 0)
      + (if is_combination daily_branch_idx nb_idx then 8 else 0))).sum
  max 0 (min 100 (round (50 + god_adj + dm_adj + branch_adj)))

/-! ### Compatibility (`compatibility.py`) -/

/-- Membership of the two-element frozenset `{a, b}` in a set of
two-element frozensets, given by the list of their element pairs: some
table pair is `(a, b)` in one of the two orders. -/
def frozen_pair_mem (pairs : List (ℤ × ℤ)) (a b : ℤ) : Prop :=
  ∃ p ∈ pairs, (p.1 = a ∧ p.2 = b) ∨ (p.1 = b ∧ p.2 = a)

instance (pairs : List (ℤ × ℤ)) (a b : ℤ) :
    Decidable (frozen_pair_mem pairs a b) := by
  unfold frozen_pair_mem; infer_instance

/-- `SIX_HARMONIES` of `compatibility.py` (as the list of its frozenset
element pairs). -/
def SIX_HARMONIES : List (ℤ × ℤ) :=
  [(0, 1), (2, 11), (3, 10), (4, 9), (5, 8), (6, 7)]

/-- `_is_harmony(a, b)`: `frozenset({a, b}) in SIX_HARMONIES`. -/
def IsSixHarmony (a b : ℤ) : Prop :=
  frozen_pair_mem SIX_HARMONIES a b

instance (a b : ℤ) : Decidable (IsSixHarmony a b) := by
  unfold IsSixHarmony; infer_instance

/-- `THREE_HARMONIES_GROUPS` of `compatibility.py`. -/
def THREE_HARMONIES_GROUPS : List (List ℤ) :=
  [[8, 0, 4], [11, 3, 7], [2, 6, 10], [5, 9, 1]]

/-- `_is_three_harmony(a, b)`: `frozenset({a, b}).issubset(g)` for one
of the groups, i.e. both indices belong to the same group (this also
holds when `a = b` lies in a group, exactly as for the Python
frozenset). -/
def IsThreeHarmony (a b : ℤ) : Prop :=
  ∃ g ∈ THREE_HARMONIES_GROUPS, a ∈ g ∧ b ∈ g

instance (a b : ℤ) : Decidable (IsThreeHarmony a b) := by
  unfold IsThreeHarmony; infer_instance

/-- `SIX_CLASHES` of `compatibility.py`. -/
def COMPAT_SIX_CLASHES : List (ℤ × ℤ) :=
  [(0, 6), (1, 7), (2, 8), (3, 9), (4, 10), (5, 11)]

/-- `_is_clash(a, b)` of `compatibility.py`. -/
def IsSixClash (a b : ℤ) : Prop :=
  frozen_pair_mem COMPAT_SIX_CLASHES a b

instance (a b : ℤ) : Decidable (IsSixClash a b) := by
  unfold IsSixClash; infer_instance

/-- `SIX_HARMS` of `compatibility.py`. -/
def SIX_HARMS : List (ℤ × ℤ) :=
  [(0, 7), (1, 6), (2, 5), (3, 4), (8, 11), (9, 10)]

/-- `_is_harm(a, b)`. -/
def IsSixHarm (a b : ℤ) : Prop :=
  frozen_pair_mem SIX_HARMS a b

instance (a b : ℤ) : Decidable (IsSixHarm a b) := by
  unfold IsSixHarm; infer_instance

/-- The `relationship_key` strings of `_score_branch_pair`. -/
inductive BranchRelKey
  | neutral | same | six_harmony | three_harmony | six_harm | six_clash
deriving DecidableEq

/-- The `relationship` strings of `_score_dm_interaction`. -/
inductive DmRelKey
  | same | generates | controls | controlled | neutral
deriving DecidableEq

/-- Python `round(x, 1)`: round to one decimal digit.  (Python rounds
half to even while `round` rounds half up; no half case arises from the
scores this file applies it to, whose denominators are odd.) -/
def round1 (x : ℚ) : ℚ :=
  (round (10 * x) : ℤ) / 10

/-- `_score_branch_pair(idx_a, idx_b)` (0–25 plus relationship key);
`idx < 0` encodes the `-1` produced by `_branch_idx` on a missing
branch name. -/
def score_branch_pair (idx_a idx_b : ℤ) : ℚ × BranchRelKey :=
  if idx_a < 0 ∨ idx_b < 0 then (12, .neutral)
  else if idx_a = idx_b then (18, .same)
  else if IsSixHarmony idx_a idx_b then (25, .six_harmony)
  else if IsThreeHarmony idx_a idx_b then (20, .three_harmony)
  else if IsSixHarm idx_a idx_b then (5, .six_harm)
  else if IsSixClash idx_a idx_b then (0, .six_clash)
  else (12, .neutral)

/-- `_score_dm_interaction(elem_a, elem_b)` (0–30 plus relationship key). -/
def score_dm_interaction (elem_a elem_b : Element) : ℚ × DmRelKey :=
  if elem_a = elem_b then (22, .same)
  else if get_element_relationships elem_a elem_b = .generates
      ∨ get_element_relationships elem_b elem_a = .generates then (28, .generates)
  else if get_element_relationships elem_a elem_b = .destroys then (10, .controls)
  else if get_element_relationships elem_b elem_a = .destroys then (10, .controlled)
  else (15, .neutral)

/-- The core of `_score_element_complement` applied to the combined
per-element counts: total, average, population variance, then
`round(max(0, 10 - variance * 0.6), 1)` (with the `total == 0 → 5.0`
guard). -/
def element_complement_core (combined : Element → ℚ) : ℚ :=
  let total := combined Wood + combined Fire + combined Earth
    + combined Metal + combined Water
  if total = 0 then 5
  else
    let avg := total / 5
    let variance := ((combined Wood - avg) ^ 2 + (combined Fire - avg) ^ 2
      + (combined Earth - avg) ^ 2 + (combined Metal - avg) ^ 2
      + (combined Water - avg) ^ 2) / 5
    round1 (max 0 (10 - variance * (6/10)))

/-- `_score_element_complement(counts_a, counts_b)` (0–10): combined
counts, then `element_complement_core`. -/
def score_element_complement (counts_a counts_b : Element → ℕ) : ℚ :=
  element_complement_core (fun e => (counts_a e : ℚ) + (counts_b e : ℚ))

/-- The fields of a fully built chart that `analyze_compatibility`
reads: Day-Master element, year/day branch indices (as produced by
`_branch_idx`), the per-element counts, and the chart's primary Use-God
element (`None` models the empty string that
`chart.get("use_god", {}).get("use_god", "")` yields when the chart
carries no use-god block). -/
structure CompatChart where
  dm_element : Element
  year_branch_idx : ℤ
  day_branch_idx : ℤ
  counts : Element → ℕ
  use_god : Option Element

/-- `_score_use_god_synergy(chart_a, chart_b)` (0–10): +5 when the
partner's chart holds at least two of one's Use-God element, +2.5 when
at least one, summed over both directions and capped at 10. -/
def score_use_god_synergy (chart_a chart_b : CompatChart) : ℚ :=
  let s1 : ℚ :=
    match chart_a.use_god with
    | some ug => if 2 ≤ chart_b.counts ug then 5
        else if 1 ≤ chart_b.counts ug then 5/2 else 0
    | none => 0
  let s2 : ℚ :=
    match chart_b.use_god with
    | some ug => if 2 ≤ chart_a.counts ug then 5
        else if 1 ≤ chart_a.counts ug then 5/2 else 0
    | none => 0
  min (0 + s1 + s2) 10

/-- The computational core of the `analyze_compatibility` result:
`total_score` (`round(dm + year + day + elem + ug, 1)`) together with
the three directional relationship keys surfaced in the dimensional
breakdown (the remaining output is labels, localized strings and the
echoed input charts). -/
def analyze_compatibility (chart_a chart_b : CompatChart) :
    ℚ × DmRelKey × BranchRelKey × BranchRelKey :=
  let dm := score_dm_interaction chart_a.dm_element chart_b.dm_element
  let year := score_branch_pair chart_a.year_branch_idx chart_b.year_branch_idx
  let day := score_branch_pair chart_a.day_branch_idx chart_b.day_branch_idx
  let elem_score := score_element_complement chart_a.counts chart_b.counts
  let ug_score := score_use_god_synergy chart_a chart_b
  (round1 (dm.1 + year.1 + day.1 + elem_score + ug_score), dm.2, year.2, day.2)

/-- Swapping the two charts turns the `controls` label into `controlled`
and vice versa, and fixes every other Day-Master label. -/
def dm_rel_swap : DmRelKey → DmRelKey
  | .controls => .controlled
  | .controlled => .controls
  | k => k

/-! ### Element counting and balance (`elements.py`) -/

/-- The per-element tally dictionary built by `count_elements` (its keys
are the five elements in declaration order). -/
structure ElementCounts where
  wood : ℕ
  fire : ℕ
  earth : ℕ
  metal : ℕ
  water : ℕ
deriving DecidableEq

/-- Read an `ElementCounts` at an element. -/
def ElementCounts.get (c : ElementCounts) : Element → ℕ
  | Wood => c.wood | Fire => c.fire | Earth => c.earth
  | Metal => c.metal | Water => c.water

/-- `count_elements(elements_list)`. -/
def count_elements (l : List Element) : ElementCounts :=
  ⟨l.count Wood, l.count Fire, l.count Earth, l.count Metal, l.count Water⟩

/-- The `balance` string of `get_element_balance`. -/
inductive BalanceKind
  | weak | neutral | strong | insufficient_data
deriving DecidableEq

/-- The computational fields of the `get_element_balance` result (the
`recommendations` string is presentation data). -/
structure ElementsAnalysis where
  total : ℕ
  balance : BalanceKind
  deficient : List Element
  abundant : List Element
deriving DecidableEq

/-- `get_element_balance(element_counts)`: average = total/5, deficient
below 0.7×avg, abundant above 1.3×avg (iterating the counts dictionary
in its key order Wood, Fire, Earth, Metal, Water), balance weak/strong
when at least two elements are deficient/abundant. -/
def get_element_balance (c : ElementCounts) : ElementsAnalysis :=
  let total := c.wood + c.fire + c.earth + c.metal + c.water
  if total = 0 then ⟨0, .insufficient_data, [], []⟩
  else
    let avg : ℚ := (total : ℚ) / 5
    let pairs : List (Element × ℕ) :=
      [(Wood, c.wood), (Fire, c.fire), (Earth, c.earth),
       (Metal, c.metal), (Water, c.water)]
    let deficient := (pairs.filter (fun p => (p.2 : ℚ) < avg * (7/10))).map Prod.fst
    let abundant := (pairs.filter (fun p => avg * (13/10) < (p.2 : ℚ))).map Prod.fst
    let balance : BalanceKind :=
      if 2 ≤ deficient.length then .weak
      else if 2 ≤ abundant.length then .strong
      else .neutral
    ⟨total, balance, deficient, abundant⟩

/-! ### Hidden stems (`hidden_stems.py`) -/

/-- `BRANCH_HIDDEN_STEMS` (branch → 1–3 concealed stems, in table order). -/
def BRANCH_HIDDEN_STEMS : EarthlyBranch → List HeavenlyStem
  | ZI => [REN]
  | CHOU => [JI, GUI, XIN]
  | YIN => [WU, JIA, BING]
  | MAO => [YI]
  | CHEN => [WU, YI, GUI]
  | SI => [GENG, BING, WU]
  | WU_BRANCH => [DING, JI]
  | WEI => [JI, DING, YI]
  | SHEN => [WU, GENG, REN]
  | YOU => [XIN]
  | XU => [XIN, DING, WU]
  | HAI => [REN, JIA]

/-! ### Deities (`deities.py`) -/

/-- `TIANYI_GUIREN` (day stem → the two nobleman branches). -/
def TIANYI_GUIREN : HeavenlyStem → List EarthlyBranch
  | JIA => [CHOU, WEI] | WU => [CHOU, WEI] | GENG => [CHOU, WEI]
  | YI => [ZI, SHEN] | JI => [ZI, SHEN]
  | BING => [HAI, YOU] | DING => [HAI, YOU]
  | REN => [MAO, SI] | GUI => [MAO, SI]
  | XIN => [YIN, WU_BRANCH]

/-- `TAOHUA_MAP` (branch → its Peach-Blossom branch; every branch is a
key). -/
def TAOHUA_MAP : EarthlyBranch → EarthlyBranch
  | YIN => MAO | WU_BRANCH => MAO | XU => MAO
  | SI => WU_BRANCH | YOU => WU_BRANCH | CHOU => WU_BRANCH
  | HAI => ZI | MAO => ZI | WEI => ZI
  | SHEN => YOU | ZI => YOU | CHEN => YOU

/-- One entry of the deity list returned by `get_deities_for_chart`:
the key plus the `pillar` tag (`",".join(found_in)` for 天乙貴人,
`f"{trigger}_triggers_{pn}"` for 桃花); interpretation strings are
presentation data. -/
inductive DeityEntry
  | tianyi_guiren (found_in : List PillarName)
  | taohua (trigger : PillarName) (at_pillar : PillarName)
deriving DecidableEq

/-- The pillar of a `FourPillars` by name, in the source's dictionary
insertion order year, month, day, hour. -/
def FourPillars.byName (fp : FourPillars) : PillarName → Pillar
  | .year => fp.year | .month => fp.month | .day => fp.day | .hour => fp.hour

/-- `get_deities_for_chart(four_pillars, day_master)`: the 天乙貴人 entry
when the day or hour branch is a nobleman branch of the day stem, then
at most one 桃花 entry — the year branch's Peach-Blossom branch is
searched for among the pillars (in insertion order) and, failing that,
the day branch's. -/
def get_deities_for_chart (fp : FourPillars) : List DeityEntry :=
  let noble_branches := TIANYI_GUIREN fp.day.stem
  let found_in : List PillarName :=
    (if fp.day.branch ∈ noble_branches then [.day] else [])
    ++ (if fp.hour.branch ∈ noble_branches then [.hour] else [])
  let tianyi : List DeityEntry :=
    if found_in ≠ [] then [.tianyi_guiren found_in] else []
  let find_peach := fun (trigger : PillarName) =>
    let peach := TAOHUA_MAP (fp.byName trigger).branch
    (([PillarName.year, .month, .day, .hour].find?
        (fun pn => (fp.byName pn).branch = peach)).map
      (fun pn => DeityEntry.taohua trigger pn))
  let taohua : List DeityEntry :=
    match find_peach .year with
    | some e => [e]
    | none =>
      match find_peach .day with
      | some e => [e]
      | none => []
  tianyi ++ taohua

/-! ### Ten-God annotation and strongest Ten God (`ten_gods.py`) -/

/-- The `ten_god` labels attached by `annotate_four_pillars_with_ten_gods`
to the eight chart positions. -/
structure TenGodAnnotations where
  year_stem : TenGodKey
  year_branch : TenGodKey
  month_stem : TenGodKey
  month_branch : TenGodKey
  day_stem : TenGodKey
  day_branch : TenGodKey
  hour_stem : TenGodKey
  hour_branch : TenGodKey
deriving DecidableEq

/-- `get_strongest_ten_god(four_pillars)`: tally the Ten-God keys of the
seven positions other than the day stem (dictionary insertion order:
year stem, year branch, month stem, month branch, day branch, hour
stem, hour branch), then `max(counts, key=counts.get)` — the first key,
in insertion order, attaining the maximal count.  Returns the key and
its count. -/
def get_strongest_ten_god (t : TenGodAnnotations) : TenGodKey × ℕ :=
  let gods : List TenGodKey :=
    [t.year_stem, t.year_branch, t.month_stem, t.month_branch,
     t.day_branch, t.hour_stem, t.hour_branch]
  let keys := gods.foldl (fun acc k => if k ∈ acc then acc else acc ++ [k]) []
  match keys with
  | [] => (.friend, 0)
  | k0 :: rest =>
    let strongest := rest.foldl
      (fun best k => if gods.count best < gods.count k then k else best) k0
    (strongest, gods.count strongest)

/-! ### Age periods (`calculator.py`, `calculate_age_periods`) -/

/-- Python `str.lower()` restricted to ASCII letters, as a total
function on strings (the gender strings the engine compares against are
ASCII). -/
def py_char_lower (c : Char) : Char :=
  if 'A' ≤ c ∧ c ≤ 'Z' then Char.ofNat (c.toNat + 32) else c

/-- Python `s.lower()` for ASCII strings. -/
def py_lower (s : String) : String :=
  ⟨s.data.map py_char_lower⟩

/-- `_get_luck_direction(gender, year_stem)`: +1 for Yang-stem males and
Yin-stem non-males, −1 otherwise; `is_male` is
`(gender or "").lower() == "male"`. -/
def get_luck_direction (gender : String) (year_stem : HeavenlyStem) : ℤ :=
  let is_yang := get_stem_yin_yang year_stem = Yang
  let is_male := py_lower gender = "male"
  if (is_male ∧ is_yang) ∨ (¬ is_male ∧ ¬ is_yang) then 1 else -1

/-- The `quality` strings of `calculate_age_periods`. -/
inductive QualityKind
  | very_auspicious | auspicious | neutral | challenging | very_challenging
deriving DecidableEq

/-- The five life-domain emphasis scores of `_derive_life_domains`. -/
structure LifeDomains where
  career : ℤ
  wealth : ℤ
  relationships : ℤ
  health : ℤ
  learning : ℤ
deriving DecidableEq

/-- `_derive_life_domains(main_element, relationship)`: a base emphasis
per element, an adjustment per relationship to the Day Master, then a
clamp of every domain into 0–3.  (The source lower-cases the element
string; on `Element` this is the plain case split.) -/
def derive_life_domains (main_element : Element) (relationship : ElemRel) :
    LifeDomains :=
  let base : LifeDomains :=
    match main_element with
    | Wood => ⟨1, 0, 0, 0, 2⟩
    | Fire => ⟨2, 0, 1, 0, 0⟩
    | Earth => ⟨0, 1, 0, 2, 0⟩
    | Metal => ⟨1, 2, 0, 0, 0⟩
    | Water => ⟨0, 0, 2, 0, 1⟩
  let adjusted : LifeDomains :=
    match relationship with
    | .generates => ⟨base.career + 1, base.wealth + 1, base.relationships + 1,
        base.health + 1, base.learning + 1⟩
    | .destroys => ⟨base.career + 1, base.wealth, base.relationships,
        base.health + 1, base.learning⟩
    | .same => ⟨base.career, base.wealth, base.relationships + 1,
        base.health, base.learning + 1⟩
    | .none => base
  let clamp := fun (v : ℤ) => max 0 (min 3 v)
  ⟨clamp adjusted.career, clamp adjusted.wealth, clamp adjusted.relationships,
   clamp adjusted.health, clamp adjusted.learning⟩

/-- The computational fields of one entry of the `calculate_age_periods`
list (summary/themes/focus/cautions/actions are localized presentation
strings generated from these fields and the language). -/
structure AgePeriod where
  start_age : ℤ
  end_age : ℤ
  start_year : ℤ
  end_year : ℤ
  luck_stem : HeavenlyStem
  luck_branch : EarthlyBranch
  main_element : Element
  relationship_to_day_master : ElemRel
  luck_score : ℤ
  quality : QualityKind
  favorable : Bool
  domains : LifeDomains
deriving DecidableEq

/-- The body of the `for i in range(num_periods)` loop of
`calculate_age_periods`. -/
def age_period_at (birth_year : ℤ) (direction : ℤ)
    (year_stem_index year_branch_index : ℤ) (day_master_element : Element)
    (i : ℕ) : AgePeriod :=
  let start_age : ℤ := 8 + i * 10
  let end_age := start_age + 9
  let offset := ((i : ℤ) + 1) * direction
  let luck_stem_index := (year_stem_index + offset) % 10
  let luck_branch_index := (year_branch_index + offset) % 12
  let luck_stem := stem_of_idx luck_stem_index
  let luck_branch := branch_of_idx luck_branch_index
  let luck_element := get_stem_element luck_stem
  let relationship := get_element_relationships luck_element day_master_element
  let reverse_rel := get_element_relationships day_master_element luck_element
  let score : ℤ :=
    if relationship = .same then 2
    else if relationship = .generates then 2
    else if reverse_rel = .generates then 1
    else if relationship = .destroys then -2
    else if reverse_rel = .destroys then -1
    else 0
  let quality : QualityKind :=
    if 2 ≤ score then .very_auspicious
    else if score = 1 then .auspicious
    else if score = 0 then .neutral
    else if score = -1 then .challenging
    else .very_challenging
  let favorable := 1 ≤ score
  let domains := derive_life_domains luck_element relationship
  { start_age := start_age
    end_age := end_age
    start_year := birth_year + start_age
    end_year := birth_year + end_age
    luck_stem := luck_stem
    luck_branch := luck_branch
    main_element := luck_element
    relationship_to_day_master := relationship
    luck_score := score
    quality := quality
    favorable := favorable
    domains := domains }

/-- `calculate_age_periods(birth_date, gender, year_stem, year_branch,
day_master_element, language)`: 8 ten-year periods from age 8, with the
luck pillar advanced `(i+1) * direction` steps from the natal year
pillar independently mod 10 and mod 12. -/
def calculate_age_periods (birth_year : ℤ) (gender : String)
    (year_stem : HeavenlyStem) (year_branch : EarthlyBranch)
    (day_master_element : Element) : List AgePeriod :=
  let direction := get_luck_direction gender year_stem
  let year_stem_index := STEM_INDEX year_stem
  let year_branch_index := BRANCH_INDEX year_branch
  (List.range 8).map
    (age_period_at birth_year direction year_stem_index year_branch_index
      day_master_element)

/-! ### Full chart (`calculator.py`, `calculate_bazi`) -/

/-- The `day_master` block of the chart. -/
structure DayMaster where
  element : Element
  yin_yang : Polarity
deriving DecidableEq

/-- The `hidden_stems` annotations attached to the four branches by
`annotate_four_pillars_with_hidden_stems`. -/
structure HiddenStemsAnnotations where
  year : List HeavenlyStem
  month : List HeavenlyStem
  day : List HeavenlyStem
  hour : List HeavenlyStem
deriving DecidableEq

/-- The computational content of the dictionary returned by a successful
`calculate_bazi` call.  Localized strings (`birth_hour_name`, pinyin and
Chinese names, advice, interpretations) are presentation renderings of
these fields. -/
structure BaziChart where
  birth_date : ℕ × ℕ × ℕ
  birth_hour : ℤ
  gender : String
  four_pillars : FourPillars
  hidden_stems : HiddenStemsAnnotations
  ten_gods : TenGodAnnotations
  day_master : DayMaster
  element_counts : ElementCounts
  element_analysis : ElementsAnalysis
  all_elements : List Element
  age_periods : List AgePeriod
  strongest_ten_god : TenGodKey × ℕ
  annual_luck : AnnualLuck
  seasonal_strength : SeasonKind
  deities : List DeityEntry
deriving DecidableEq

/-- `calculate_bazi(birth_date_str, birth_hour, gender, language)`.

* `birth_date` is the result of `datetime.strptime(birth_date_str,
  "%Y-%m-%d")`: `none` models a string that fails to parse (the raised
  `ValueError` is caught and turned into a `success: False` dictionary,
  modelled as `none` here); `some (y, m, d)` a parsed date.
* `now_year` models the system clock: `calculate_annual_luck` is called
  without an explicit year, so it uses `datetime.now().year`.
* No other failure path exists in the body: every other input, including
  an out-of-range `birth_hour` or an unknown `gender`, flows through to
  an ordinary chart. -/
def calculate_bazi (birth_date : Option (ℕ × ℕ × ℕ)) (birth_hour : ℤ)
    (gender : String) (now_year : ℤ) : Option BaziChart :=
  match birth_date with
  | none => none
  | some (year, month, day) =>
    let yp := get_year_stem_branch year
    let mp := get_month_stem_branch year month
    let dp := get_day_stem_branch year month day
    let hp := get_hour_stem_branch dp.1 birth_hour
    let four_pillars : FourPillars :=
      ⟨⟨yp.1, yp.2⟩, ⟨mp.1, mp.2⟩, ⟨dp.1, dp.2⟩, ⟨hp.1, hp.2⟩⟩
    let all_elements : List Element :=
      [get_stem_element yp.1, get_branch_element yp.2,
       get_stem_element mp.1, get_branch_element mp.2,
       get_stem_element dp.1, get_branch_element dp.2,
       get_stem_element hp.1, get_branch_element hp.2]
    let element_counts := count_elements all_elements
    let element_analysis := get_element_balance element_counts
    let day_master : DayMaster := ⟨get_stem_element dp.1, get_stem_yin_yang dp.1⟩
    let hidden : HiddenStemsAnnotations :=
      ⟨BRANCH_HIDDEN_STEMS yp.2, BRANCH_HIDDEN_STEMS mp.2,
       BRANCH_HIDDEN_STEMS dp.2, BRANCH_HIDDEN_STEMS hp.2⟩
    let tg := fun (e : Element) (p : Polarity) =>
      get_ten_god day_master.element day_master.yin_yang e p
    let ten_gods : TenGodAnnotations :=
      ⟨tg (get_stem_element yp.1) (get_stem_yin_yang yp.1),
       tg (get_branch_element yp.2) (get_branch_yin_yang yp.2),
       tg (get_stem_element mp.1) (get_stem_yin_yang mp.1),
       tg (get_branch_element mp.2) (get_branch_yin_yang mp.2),
       tg (get_stem_element dp.1) (get_stem_yin_yang dp.1),
       tg (get_branch_element dp.2) (get_branch_yin_yang dp.2),
       tg (get_stem_element hp.1) (get_stem_yin_yang hp.1),
       tg (get_branch_element hp.2) (get_branch_yin_yang hp.2)⟩
    let strongest := get_strongest_ten_god ten_gods
    let annual := calculate_annual_luck four_pillars now_year
    let month_branch_index := BRANCH_INDEX mp.2
    let seasonal := get_seasonal_strength day_master.element month_branch_index
    let deities := get_deities_for_chart four_pillars
    let age_periods :=
      calculate_age_periods (year : ℤ) gender yp.1 yp.2 day_master.element
    some
      { birth_date := (year, month, day)
        birth_hour := birth_hour
        gender := gender
        four_pillars := four_pillars
        hidden_stems := hidden
        ten_gods := ten_gods
        day_master := day_master
        element_counts := element_counts
        element_analysis := element_analysis
        all_elements := all_elements
        age_periods := age_periods
        strongest_ten_god := strongest
        annual_luck := annual
        seasonal_strength := seasonal
        deities := deities }

/-- The clock-independent part of a chart: every field except
`annual_luck` (which embeds the current system year). -/
def chart_static (c : BaziChart) :=
  (c.birth_date, c.birth_hour, c.gender, c.four_pillars, c.hidden_stems,
   c.ten_gods, c.day_master, c.element_counts, c.element_analysis,
   c.all_elements, c.age_periods, c.strongest_ten_god,
   c.seasonal_strength, c.deities)

/-! ### Boundary validation (`main.py`, `validate_birth_input`) -/

/-- The distinct validation failures of `validate_birth_input`, each
raised as an `HTTPException(400)` with a descriptive detail string. -/
inductive ValidationError
  | bad_date_format | year_out_of_range | future_date
  | bad_hour | bad_gender | bad_calendar
deriving DecidableEq

/-- Python `date` ordering (calendar order = lexicographic on
`(year, month, day)`). -/
def date_lt (a b : ℕ × ℕ × ℕ) : Prop :=
  a.1 < b.1 ∨ (a.1 = b.1 ∧ (a.2.1 < b.2.1 ∨ (a.2.1 = b.2.1 ∧ a.2.2 < b.2.2)))

instance (a b : ℕ × ℕ × ℕ) : Decidable (date_lt a b) := by
  unfold date_lt; infer_instance

/-- `validate_birth_input(birth_date, birth_hour, gender, calendar_type)`
of `main.py`: the first failing check raises; `parsed` is the
`strptime` result (`none` for an unparsable date string), `today` models
`date.today()` in the no-future-dates check.  This runs before any call
into the engine. -/
def validate_birth_input (parsed : Option (ℕ × ℕ × ℕ)) (birth_hour : ℤ)
    (gender : String) (calendar_type : String) (today : ℕ × ℕ × ℕ) :
    Except ValidationError Unit :=
  match parsed with
  | none => .error .bad_date_format
  | some d =>
    if d.1 < 1900 ∨ 2100 < d.1 then .error .year_out_of_range
    else if calendar_type = "solar" ∧ date_lt today d then .error .future_date
    else if birth_hour < 0 ∨ 23 < birth_hour then .error .bad_hour
    else if gender ≠ "male" ∧ gender ≠ "female" then .error .bad_gender
    else if calendar_type ≠ "solar" ∧ calendar_type ≠ "lunar" then .error .bad_calendar
    else .ok ()

/-! ### Helper lemmas -/

/-- The dictionary lookup of `get_stem_by_index` always succeeds, and
agrees with the total variant `stem_of_idx`. -/
lemma get_stem_by_index_eq (n : ℤ) :
    get_stem_by_index n = some (stem_of_idx n) := by
  have h0 : 0 ≤ n % 10 := Int.emod_nonneg n (by norm_num)
  have h1 : n % 10 < 10 := Int.emod_lt_of_pos n (by norm_num)
  unfold get_stem_by_index stem_of_idx INDEX_TO_STEM_get
  generalize hk : n % 10 = k at h0 h1 ⊢
  interval_cases k <;> rfl

/-- The dictionary lookup of `get_branch_by_index` always succeeds, and
agrees with the total variant `branch_of_idx`. -/
lemma get_branch_by_index_eq (n : ℤ) :
    get_branch_by_index n = some (branch_of_idx n) := by
  have h0 : 0 ≤ n % 12 := Int.emod_nonneg n (by norm_num)
  have h1 : n % 12 < 12 := Int.emod_lt_of_pos n (by norm_num)
  unfold get_branch_by_index branch_of_idx INDEX_TO_BRANCH_get
  generalize hk : n % 12 = k at h0 h1 ⊢
  interval_cases k <;> rfl

/-! ### C7 — relationship exclusivity -/

/-- C7.  For every ordered pair of elements, exactly one of
generates(a,b), generates(b,a), a = b, and "none of those" holds (the
spec's `none` alternative); and every element has exactly one generator
and exactly one destroyer among the five elements. -/
theorem element_relationship_exclusivity :
    (∀ a b : Element,
      ([decide (get_element_relationships a b = .generates),
        decide (get_element_relationships b a = .generates),
        decide (a = b),
        decide (get_element_relationships a b ≠ .generates
          ∧ get_element_relationships b a ≠ .generates ∧ a ≠ b)].count true = 1))
    ∧ (∀ e : Element,
        (∃! g : Element, GENERATION_CYCLE g = e)
        ∧ (∃! d : Element, DESTRUCTION_CYCLE d = e)) := by
  constructor
  · decide
  · intro e
    constructor
    · unfold ExistsUnique
      revert e
      decide
    · unfold ExistsUnique
      revert e
      decide

/-! ### C3 — the sexagenary year cycle has period exactly 60 -/

/-- C3.  `get_year_stem_branch` is invariant under shifting the year by
60, and 60 is the minimal period: for every proper positive divisor `d`
of 60 some year `y` has `get_year_stem_branch y ≠ get_year_stem_branch
(y + d)`. -/
theorem year_cycle_period_exactly_sixty :
    (∀ y : ℤ, get_year_stem_branch (y + 60) = get_year_stem_branch y)
    ∧ (∀ d : ℤ, 0 < d → d ∣ 60 → d < 60 →
        ∃ y : ℤ, get_year_stem_branch y ≠ get_year_stem_branch (y + d)) := by
  constructor
  · intro y
    unfold get_year_stem_branch GREGORIAN_EPOCH
    have h : (y + 60 - 1900) % 60 = (y - 1900) % 60 := by omega
    rw [h]
  · intro d hpos hdvd hlt
    interval_cases d <;>
      first
        | exact absurd hdvd (by decide)
        | exact ⟨1900, by decide⟩

/-! ### C4 — Ten-Gods totality -/

/-- C4.  For all 100 combinations of Day-Master element/polarity and
target element/polarity, exactly one of the five priority conditions
(same element; DM generates target; DM destroys target; target destroys
DM; target generates DM) holds — so the priority order is immaterial —
and `get_ten_god` lands in the two-polarity Ten-God category that the
firing condition dictates, hence in exactly one of the 10 categories. -/
theorem ten_gods_totality_and_priority :
    ∀ (de : Element) (dp : Polarity) (te : Element) (tp : Polarity),
      ([decide (get_element_relationships de te = .same),
        decide (get_element_relationships de te = .generates),
        decide (get_element_relationships de te = .destroys),
        decide (get_element_relationships te de = .destroys),
        decide (get_element_relationships te de = .generates)].count true = 1)
      ∧ get_ten_god de dp te tp ∈
          ten_god_category_spec (get_element_relationships de te)
            (get_element_relationships te de) := by
  decide

/-! ### C10 — index lookups are total, luck pillars always valid -/

/-- C10.  `get_stem_by_index` and `get_branch_by_index` succeed on every
integer, including negative ones, returning the stem/branch at the
non-negative residue mod 10/mod 12; consequently the luck-pillar
lookups of `calculate_age_periods` — whose index argument is
`(year_index + (i+1)*direction) % n` with `direction = ±1` — are
`some _` for every period, so the backward progression never performs
an out-of-range lookup. -/
theorem index_lookup_total_and_luck_pillars_valid :
    (∀ n : ℤ, get_stem_by_index n = some (stem_of_idx n))
    ∧ (∀ n : ℤ, get_branch_by_index n = some (branch_of_idx n))
    ∧ (∀ year_stem_index direction : ℤ, ∀ i : ℕ,
        (get_stem_by_index
          ((year_stem_index + ((i : ℤ) + 1) * direction) % 10)).isSome)
    ∧ (∀ year_branch_index direction : ℤ, ∀ i : ℕ,
        (get_branch_by_index
          ((year_branch_index + ((i : ℤ) + 1) * direction) % 12)).isSome) := by
  refine ⟨get_stem_by_index_eq, get_branch_by_index_eq, ?_, ?_⟩
  · intro ysi dir i
    rw [get_stem_by_index_eq]
    rfl
  · intro ybi dir i
    rw [get_branch_by_index_eq]
    rfl

/-- Witness for C3: concrete instances of both conjuncts at year 1990
and divisor 30. -/
theorem year_cycle_period_exactly_sixty_witness :
    get_year_stem_branch (1990 + 60) = get_year_stem_branch 1990
    ∧ ∃ y : ℤ, get_year_stem_branch y ≠ get_year_stem_branch (y + 30) :=
  ⟨year_cycle_period_exactly_sixty.1 1990,
   year_cycle_period_exactly_sixty.2 30 (by decide) (by decide) (by decide)⟩

/-! ### C5 — Day-Master strength score and Use-God outcome -/

/-- C5.  For every Day-Master element, seasonal strength and chart, the
strength score computed by `_calculate_dm_strength_score` equals the
spec's formula (seasonal ±2/0 plus the 7 per-position contributions
+1 / +0.5 / −1 / −0.5), and `determine_use_god` resolves exactly the
Use-God/Avoid-God outcome the spec maps each score band to. -/
theorem dm_strength_score_and_use_god_match_spec :
    ∀ (dm : Element) (s : SeasonKind) (fp : FourPillars),
      calculate_dm_strength_score dm s fp = dm_strength_score_spec dm s fp
      ∧ determine_use_god dm s fp = use_god_outcome_spec dm s fp := by
  intro dm s fp
  have hscore : calculate_dm_strength_score dm s fp
      = dm_strength_score_spec dm s fp := by
    unfold calculate_dm_strength_score dm_strength_score_spec
      dm_position_contribution
    simp only [List.map_cons, List.map_nil, List.sum_cons, List.sum_nil]
    ring
  refine ⟨hscore, ?_⟩
  unfold determine_use_god use_god_outcome_spec
  rw [hscore]

/-! ### C6 — daily overall score formula and clamping -/

/-- Unrolling the clash/combination `for` loop of
`calculate_overall_score` into the sum of per-branch adjustments. -/
lemma foldl_clash_comb (daily_branch_idx : ℤ) (l : List ℤ) (init : ℚ) :
    l.foldl
      (fun acc nb_idx =>
        let acc := if is_clash daily_branch_idx nb_idx then acc - 8 else acc
        if is_combination daily_branch_idx nb_idx then acc + 8 else acc)
      init
    = init + (l.map (fun nb_idx =>
        (if is_clash daily_branch_idx nb_idx then (-8 : ℚ) else 0)
        + (if is_combination daily_branch_idx nb_idx then 8 else 0))).sum := by
  induction l generalizing init with
  | nil => simp
  | cons h t ih =>
    simp only [List.foldl_cons, List.map_cons, List.sum_cons, ih]
    split_ifs <;> ring

/-- C6.  For every natal chart data and daily pillar,
`calculate_overall_score` computes exactly the spec's formula — 50 plus
the use/avoid-god adjustment, the Day-Master relation adjustments, and
±8 per natal branch clash/combination, clamped — and the result lies in
[0, 100] for every input, however adversarial. -/
theorem overall_score_matches_spec_and_clamped :
    ∀ (dm_element : Element)
      (use_god use_god_2 avoid_god avoid_god_2 : Option Element)
      (daily_elem : Element) (daily_branch_idx : ℤ)
      (natal_branch_indices : List ℤ),
      calculate_overall_score dm_element use_god use_god_2 avoid_god
          avoid_god_2 daily_elem daily_branch_idx natal_branch_indices
        = overall_score_spec dm_element use_god use_god_2 avoid_god
          avoid_god_2 daily_elem daily_branch_idx natal_branch_indices
      ∧ 0 ≤ calculate_overall_score dm_element use_god use_god_2 avoid_god
          avoid_god_2 daily_elem daily_branch_idx natal_branch_indices
      ∧ calculate_overall_score dm_element use_god use_god_2 avoid_god
          avoid_god_2 daily_elem daily_branch_idx natal_branch_indices
        ≤ 100 := by
  intro dm ug ug2 ag ag2 de dbi natal
  refine ⟨?_, ?_, ?_⟩
  · unfold calculate_overall_score overall_score_spec
    dsimp only
    rw [foldl_clash_comb]
    congr 3
    ring
  · unfold calculate_overall_score
    exact le_max_left 0 _
  · unfold calculate_overall_score
    exact max_le (by norm_num) (min_le_left 100 _)

/-! ### C1 — compatibility symmetry -/

/-- Frozenset membership does not depend on the order of the two
indices. -/
lemma frozen_pair_mem_symm (pairs : List (ℤ × ℤ)) (a b : ℤ) :
    frozen_pair_mem pairs b a ↔ frozen_pair_mem pairs a b := by
  unfold frozen_pair_mem
  constructor <;> (rintro ⟨p, hp, h⟩; exact ⟨p, hp, h.symm⟩)

/-- `_score_branch_pair` is symmetric in its two branch indices (all its
tests are frozenset/equality tests). -/
lemma score_branch_pair_symm (a b : ℤ) :
    score_branch_pair b a = score_branch_pair a b := by
  have hh : IsSixHarmony b a ↔ IsSixHarmony a b :=
    frozen_pair_mem_symm SIX_HARMONIES a b
  have ht : IsThreeHarmony b a ↔ IsThreeHarmony a b := by
    unfold IsThreeHarmony
    constructor <;> (rintro ⟨g, hg, h1, h2⟩; exact ⟨g, hg, h2, h1⟩)
  have hm : IsSixHarm b a ↔ IsSixHarm a b := frozen_pair_mem_symm SIX_HARMS a b
  have hc : IsSixClash b a ↔ IsSixClash a b :=
    frozen_pair_mem_symm COMPAT_SIX_CLASHES a b
  simp only [score_branch_pair, hh, ht, hm, hc,
    or_comm (a := b < 0) (b := a < 0), eq_comm (a := b) (b := a)]

/-- The numeric part of `_score_dm_interaction` is symmetric. -/
lemma score_dm_interaction_score_symm (a b : Element) :
    (score_dm_interaction b a).1 = (score_dm_interaction a b).1 := by
  revert a b; decide

/-- Swapping the Day Masters swaps the `controls`/`controlled` labels of
`_score_dm_interaction` and fixes the other labels. -/
lemma score_dm_interaction_label_symm (a b : Element) :
    (score_dm_interaction b a).2 = dm_rel_swap (score_dm_interaction a b).2 := by
  revert a b; decide

/-- `_score_element_complement` is symmetric: it only reads the sums of
the two count tables. -/
lemma score_element_complement_symm (ca cb : Element → ℕ) :
    score_element_complement cb ca = score_element_complement ca cb := by
  unfold score_element_complement
  congr 1
  funext e
  ring

/-- `_score_use_god_synergy` is symmetric: the two directional addends
swap and the cap at 10 is unaffected. -/
lemma score_use_god_synergy_symm (chart_a chart_b : CompatChart) :
    score_use_god_synergy chart_b chart_a
      = score_use_god_synergy chart_a chart_b := by
  unfold score_use_god_synergy
  dsimp only
  congr 1
  ring

/-- C1.  Swapping the two charts leaves the compatibility `total_score`
unchanged (and likewise the year- and day-branch relationship keys);
only the directional Day-Master label may change, and exactly by the
`controls` ↔ `controlled` swap. -/
theorem compatibility_total_score_symmetric :
    ∀ chart_a chart_b : CompatChart,
      (analyze_compatibility chart_b chart_a).1
        = (analyze_compatibility chart_a chart_b).1
      ∧ (analyze_compatibility chart_b chart_a).2.2.1
        = (analyze_compatibility chart_a chart_b).2.2.1
      ∧ (analyze_compatibility chart_b chart_a).2.2.2
        = (analyze_compatibility chart_a chart_b).2.2.2
      ∧ (analyze_compatibility chart_b chart_a).2.1
        = dm_rel_swap (analyze_compatibility chart_a chart_b).2.1 := by
  intro A B
  unfold analyze_compatibility
  dsimp only
  refine ⟨?_, ?_, ?_, ?_⟩
  · rw [score_dm_interaction_score_symm, score_branch_pair_symm,
      score_branch_pair_symm (A.day_branch_idx),
      score_element_complement_symm, score_use_god_synergy_symm]
  · rw [score_branch_pair_symm]
  · rw [score_branch_pair_symm]
  · rw [score_dm_interaction_label_symm]

/-! ### C2 — the two day-pillar computations agree -/

/-- The leap-year test, restated over `ℤ`. -/
lemma is_leap_year_iff (y : ℕ) :
    is_leap_year y = true
      ↔ (((y : ℤ) % 4 = 0 ∧ (y : ℤ) % 100 ≠ 0) ∨ (y : ℤ) % 400 = 0) := by
  unfold is_leap_year
  simp only [Bool.or_eq_true, Bool.and_eq_true, beq_iff_eq, bne_iff_ne, ne_eq]
  constructor <;> intro h <;> omega

/-- The year loop of `get_day_stem_branch` accumulates exactly the
ordinal difference between the 1st of January of `1900 + n` and of
1900. -/
lemma days_for_years_eq (n : ℕ) :
    days_for_years n
      = days_before_year (1900 + (n : ℤ)) - days_before_year 1900 := by
  induction n with
  | zero => simp [days_for_years, days_before_year]
  | succ k ih =>
    have hcast : ((1900 + k : ℕ) : ℤ) = 1900 + (k : ℤ) := by push_cast; ring
    have hstep :
        days_before_year (1900 + (k : ℤ) + 1) - days_before_year (1900 + (k : ℤ))
          = (if is_leap_year (1900 + k) then (366 : ℤ) else 365) := by
      by_cases hl : is_leap_year (1900 + k) = true
      · rw [if_pos hl]
        rw [is_leap_year_iff, hcast] at hl
        unfold days_before_year
        omega
      · rw [if_neg hl]
        rw [is_leap_year_iff, hcast] at hl
        unfold days_before_year
        omega
    have hunf : days_for_years (k + 1)
        = days_for_years k + (if is_leap_year (1900 + k) then (366 : ℤ) else 365) := rfl
    rw [hunf, ih, ← hstep]
    push_cast
    ring_nf

/-- The month loop of `get_day_stem_branch` accumulates exactly
CPython's cumulative days-before-month table. -/
lemma days_for_months_eq (y m : ℕ) (h1 : 1 ≤ m) (h2 : m ≤ 12) :
    days_for_months y (m - 1) = days_before_month y m := by
  interval_cases m <;> cases hl : is_leap_year y <;>
    norm_num [days_for_months, get_days_in_month, days_before_month, hl]

/-- The day-count of the calculator's explicit loop, measured from
1900-01-01 as day 1, equals the ordinal-difference day-count of the
forecast engine. -/
lemma total_days_eq_ordinal_delta (y m d : ℕ) (hy1 : 1900 ≤ y)
    (hm1 : 1 ≤ m) (hm2 : m ≤ 12) :
    total_days y m d - 1 = to_ordinal y m d - to_ordinal 1900 1 1 := by
  unfold total_days to_ordinal
  have hyear := days_for_years_eq (y - 1900)
  have hcast : (1900 + ((y - 1900 : ℕ) : ℤ)) = (y : ℤ) := by omega
  rw [hcast] at hyear
  rw [hyear, days_for_months_eq y m hm1 hm2]
  have h19 : days_before_month 1900 1 = 0 := by decide
  rw [h19]
  ring_nf

/-- C2.  For every Gregorian date with year 1900–2100, the day pillar of
the calculator's explicit leap-year-aware loop (`get_day_stem_branch`)
equals the day pillar of the forecast engine's O(1) date-delta
arithmetic from the 1900-01-01 epoch (`get_daily_pillar`): same stem
and same branch. -/
theorem day_pillar_loop_eq_daily_pillar :
    ∀ y m d : ℕ, 1900 ≤ y → y ≤ 2100 → 1 ≤ m → m ≤ 12 →
      1 ≤ d → (d : ℤ) ≤ get_days_in_month y m →
      get_day_stem_branch y m d = get_daily_pillar y m d := by
  intro y m d hy1 hy2 hm1 hm2 hd1 hd2
  unfold get_day_stem_branch get_daily_pillar
  rw [total_days_eq_ordinal_delta y m d hy1 hm1 hm2]

/-- Witness for C2 at the concrete date 1990-05-15. -/
theorem day_pillar_loop_eq_daily_pillar_witness :
    get_day_stem_branch 1990 5 15 = get_daily_pillar 1990 5 15 :=
  day_pillar_loop_eq_daily_pillar 1990 5 15 (by norm_num) (by norm_num)
    (by norm_num) (by norm_num) (by norm_num) (by decide)

/-! ### C8 — determinism and the system clock -/

/-- Counterexample to C8 as stated: with identical explicit inputs
`("1990-05-15", 14, "male")`, `calculate_bazi` returns different
outputs when the system clock reads 2025 versus 2026, because
`calculate_annual_luck` is invoked without a year and so uses
`datetime.now().year`. -/
theorem calculate_bazi_clock_dependent :
    calculate_bazi (some (1990, 5, 15)) 14 "male" 2025
      ≠ calculate_bazi (some (1990, 5, 15)) 14 "male" 2026 := by
  intro h
  have h2 := congrArg (Option.map (fun c => c.annual_luck.year)) h
  have e1 : (calculate_bazi (some (1990, 5, 15)) 14 "male" 2025).map
      (fun c => c.annual_luck.year) = some 2025 := rfl
  have e2 : (calculate_bazi (some (1990, 5, 15)) 14 "male" 2026).map
      (fun c => c.annual_luck.year) = some 2026 := rfl
  rw [e1, e2] at h2
  simp at h2

/-- C8 (amended).  Every modelled entry point is a deterministic,
side-effect-free function of its explicit inputs *plus the current
system date*; in `calculate_bazi`, the clock flows only into the
`annual_luck` component: every other output field is identical across
any two invocation times. -/
theorem calculate_bazi_static_clock_independent :
    ∀ (birth_date : Option (ℕ × ℕ × ℕ)) (birth_hour : ℤ) (gender : String)
      (now_year_1 now_year_2 : ℤ),
      (calculate_bazi birth_date birth_hour gender now_year_1).map chart_static
        = (calculate_bazi birth_date birth_hour gender now_year_2).map chart_static := by
  intro bd h g y1 y2
  cases bd with
  | none => rfl
  | some t =>
    obtain ⟨y, m, d⟩ := t
    rfl

/-! ### C9 — boundary validation versus engine behaviour -/

/-- Counterexample to C9 as stated: fed directly to the engine, an hour
far outside 0–23 together with an unknown gender still yields an
ordinary success chart (`calculate_bazi` returns `some _`, the model of
`success: True`), rather than failing fast. -/
theorem calculate_bazi_invalid_input_succeeds :
    (calculate_bazi (some (1990, 5, 15)) 99 "alien" 2025).isSome = true := rfl

/-- The engine normalises any hour modulo 24 before use. -/
lemma get_hour_stem_branch_mod (s : HeavenlyStem) (h : ℤ) :
    get_hour_stem_branch s (h % 24) = get_hour_stem_branch s h := by
  unfold get_hour_stem_branch
  rw [Int.emod_emod_of_dvd _ (dvd_refl 24)]

/-- Any gender whose lower-casing is not `"male"` takes the same luck
direction as `"female"`. -/
lemma get_luck_direction_not_male (g : String) (ys : HeavenlyStem)
    (h : py_lower g ≠ "male") :
    get_luck_direction g ys = get_luck_direction "female" ys := by
  unfold get_luck_direction
  have hf : py_lower "female" ≠ "male" := by decide
  simp [h, hf]

/-- Any gender whose lower-casing is not `"male"` produces the same
age periods as `"female"`. -/
lemma calculate_age_periods_not_male (by_ : ℤ) (g : String)
    (ys : HeavenlyStem) (yb : EarthlyBranch) (dm : Element)
    (h : py_lower g ≠ "male") :
    calculate_age_periods by_ g ys yb dm
      = calculate_age_periods by_ "female" ys yb dm := by
  unfold calculate_age_periods
  rw [get_luck_direction_not_male g ys h]

/-- C9 (amended).  Malformed caller input is rejected with a
descriptive validation error at the HTTP boundary
(`validate_birth_input` in `main.py`) before any engine call: an
unparsable date string, an hour outside 0–23, and a gender outside
male/female each produce their distinct 400-error.  The engine itself,
however, does not fail fast on such values: `calculate_bazi` succeeds
on every hour and gender, silently reducing the hour modulo 24 and
treating every non-male gender as female. -/
theorem boundary_validates_engine_normalizes :
    (∀ (birth_hour : ℤ) (gender calendar_type : String) (today : ℕ × ℕ × ℕ),
        validate_birth_input none birth_hour gender calendar_type today
          = .error .bad_date_format)
    ∧ (∀ (d : ℕ × ℕ × ℕ) (birth_hour : ℤ) (gender : String)
        (today : ℕ × ℕ × ℕ),
        1900 ≤ d.1 → d.1 ≤ 2100 → ¬ date_lt today d →
        (birth_hour < 0 ∨ 23 < birth_hour) →
        validate_birth_input (some d) birth_hour gender "solar" today
          = .error .bad_hour)
    ∧ (∀ (d : ℕ × ℕ × ℕ) (birth_hour : ℤ) (gender : String)
        (today : ℕ × ℕ × ℕ),
        1900 ≤ d.1 → d.1 ≤ 2100 → ¬ date_lt today d →
        0 ≤ birth_hour → birth_hour ≤ 23 →
        gender ≠ "male" → gender ≠ "female" →
        validate_birth_input (some d) birth_hour gender "solar" today
          = .error .bad_gender)
    ∧ (∀ (d : ℕ × ℕ × ℕ) (birth_hour : ℤ) (gender : String) (now_year : ℤ),
        (calculate_bazi (some d) birth_hour gender now_year).isSome = true)
    ∧ (∀ (d : ℕ × ℕ × ℕ) (birth_hour : ℤ) (gender : String) (now_year : ℤ),
        (calculate_bazi (some d) birth_hour gender now_year).map
            (fun c => c.four_pillars)
          = (calculate_bazi (some d) (birth_hour % 24) gender now_year).map
            (fun c => c.four_pillars))
    ∧ (∀ (d : ℕ × ℕ × ℕ) (birth_hour : ℤ) (gender : String) (now_year : ℤ),
        py_lower gender ≠ "male" →
        (calculate_bazi (some d) birth_hour gender now_year).map
            (fun c => c.age_periods)
          = (calculate_bazi (some d) birth_hour "female" now_year).map
            (fun c => c.age_periods)) := by
  refine ⟨?_, ?_, ?_, ?_, ?_, ?_⟩
  · intro h g ct t
    rfl
  · intro d h g t h1 h2 h3 h4
    simp only [validate_birth_input]
    rw [if_neg (show ¬(d.1 < 1900 ∨ 2100 < d.1) by omega),
      if_neg (show ¬(True ∧ date_lt t d) from by simp [h3]),
      if_pos (show h < 0 ∨ 23 < h from h4)]
  · intro d h g t h1 h2 h3 h4 h5 h6 h7
    simp only [validate_birth_input]
    rw [if_neg (show ¬(d.1 < 1900 ∨ 2100 < d.1) by omega),
      if_neg (show ¬(True ∧ date_lt t d) from by simp [h3]),
      if_neg (show ¬(h < 0 ∨ 23 < h) by omega),
      if_pos (show g ≠ "male" ∧ g ≠ "female" from ⟨h6, h7⟩)]
  · intro d h g ny
    obtain ⟨y, m, dd⟩ := d
    rfl
  · intro d h g ny
    obtain ⟨y, m, dd⟩ := d
    simp only [calculate_bazi, Option.map_some']
    rw [get_hour_stem_branch_mod]
  · intro d h g ny hg
    obtain ⟨y, m, dd⟩ := d
    simp only [calculate_bazi, Option.map_some']
    rw [calculate_age_periods_not_male _ _ _ _ _ hg]

/-- Witness for the amended C9 at concrete inputs: the boundary rejects
an unparsable date, hour 99 and gender "alien" (with today = 2026-01-01),
while the engine succeeds on hour 14 directly, maps hour 27 to the same
four pillars as 27 % 24 = 3, and treats "ALIEN" like "female" for the
age periods. -/
theorem boundary_validates_engine_normalizes_witness :
    validate_birth_input none 14 "male" "solar" (2026, 1, 1)
        = .error .bad_date_format
    ∧ validate_birth_input (some (1990, 5, 15)) 99 "male" "solar" (2026, 1, 1)
        = .error .bad_hour
    ∧ validate_birth_input (some (1990, 5, 15)) 14 "alien" "solar" (2026, 1, 1)
        = .error .bad_gender
    ∧ (calculate_bazi (some (1990, 5, 15)) 14 "male" 2026).isSome = true
    ∧ (calculate_bazi (some (1990, 5, 15)) 27 "male" 2026).map
        (fun c => c.four_pillars)
      = (calculate_bazi (some (1990, 5, 15)) (27 % 24) "male" 2026).map
        (fun c => c.four_pillars)
    ∧ (calculate_bazi (some (1990, 5, 15)) 14 "ALIEN" 2026).map
        (fun c => c.age_periods)
      = (calculate_bazi (some (1990, 5, 15)) 14 "female" 2026).map
        (fun c => c.age_periods) := by
  obtain ⟨w1, w2, w3, w4, w5, w6⟩ := boundary_validates_engine_normalizes
  exact ⟨w1 14 "male" "solar" (2026, 1, 1),
    w2 (1990, 5, 15) 99 "male" (2026, 1, 1) (by decide) (by decide) (by decide)
      (by decide),
    w3 (1990, 5, 15) 14 "alien" (2026, 1, 1) (by decide) (by decide) (by decide)
      (by decide) (by decide) (by decide) (by decide),
    w4 (1990, 5, 15) 14 "male" 2026,
    w5 (1990, 5, 15) 27 "male" 2026,
    w6 (1990, 5, 15) 14 "ALIEN" 2026 (by decide)⟩
